import Mathlib

/-!
Verification of the couchdb-model library (src/lib/couchdb-model.js).

The development shallowly embeds the parts of the source the claims are
about: the view-method parameter normalizer (`createViewMethod`, lines
294-341), the collection gateway operations (`Model.save`, `Model.delete`,
`Model.findAll`, `Model.findOneByID`, `Model.findManyByView`,
`Model.findOneByView`), the document handle (`Instance`, in particular
`Instance.delete` and `Instance.toVO`), and the REST request router
(`createRequestHandler` / `onRequest`, lines 75-245).

JavaScript values are modelled by the inductive `JSValue`.  `typeof` and
truthiness follow the JavaScript semantics on these variants; note in
particular that `typeof null` is the string "object" and that `null` is the
only falsy value of typeof "object".  Arrays are not distinguished from
plain objects (both have typeof "object", which is the only thing the
source inspects).  Loose equality against the literal string "dsc"
(`sort == 'dsc'`, line 323) is modelled for primitive values; the
implicit-coercion cases for wrapper objects are not modelled.
-/

/-- A JavaScript value, as far as the library inspects one. -/
inductive JSValue where
  | null
  | undef
  | bool (b : Bool)
  | num (n : Int)
  | str (s : String)
  | func
  | obj (fields : List (String × JSValue))

/-- The JavaScript `typeof` operator on `JSValue`.
`typeof null` is "object"; functions have their own typeof tag. -/
def jsTypeof : JSValue → String
  | .null => "object"
  | .undef => "undefined"
  | .bool _ => "boolean"
  | .num _ => "number"
  | .str _ => "string"
  | .func => "function"
  | .obj _ => "object"

/-- JavaScript truthiness: `null`, `undefined`, `false`, `0` and the empty
string are falsy; every other value (including every function and every
object) is truthy. -/
def jsTruthy : JSValue → Bool
  | .null => false
  | .undef => false
  | .bool b => b
  | .num n => !(n == 0)
  | .str s => !(s == "")
  | .func => true
  | .obj _ => true

/-- Does the value denote the JavaScript `null` literal?
Models the strict comparison `startkey === null` (line 303). -/
def jsIsNull : JSValue → Bool
  | .null => true
  | _ => false

/-- Loose equality against the string literal "dsc", the test
`sort == 'dsc'` on line 323.  On the primitive variants loose equality
against a non-numeric string holds exactly for the equal string; numbers,
booleans, `null`, `undefined`, functions and plain objects all compare
unequal to "dsc". -/
def looseEqDsc : JSValue → Bool
  | .str s => s == "dsc"
  | _ => false

/-- Property lookup on a JavaScript object modelled as an association
list of own enumerable properties: the first binding wins. -/
def jsLookup : List (String × JSValue) → String → Option JSValue
  | [], _ => none
  | (k, v) :: rest, key => if k = key then some v else jsLookup rest key

/-- Property assignment `o[key] = v`: replaces the existing binding in
place (JavaScript keeps the original insertion position) or appends a
fresh binding at the end. -/
def jsSetField : List (String × JSValue) → String → JSValue → List (String × JSValue)
  | [], key, v => [(key, v)]
  | (k, w) :: rest, key, v =>
      if k = key then (k, v) :: rest else (k, w) :: jsSetField rest key v

/-- The canonical query-parameter object built by the positional branch of
the normalizer (lines 309-335).  A `none` field means the property was
never assigned; `some v` means the property exists with value `v`
(possibly `undef`, matching a JavaScript own property holding
`undefined`). -/
structure ViewParams where
  key : Option JSValue := none
  startkey : Option JSValue := none
  endkey : Option JSValue := none
  descending : Option Bool := none
  limit : Option JSValue := none
  skip : Option JSValue := none

/-- The `params` value the generated view method hands to
`findManyByView`/`findOneByView`: either the caller's object passed
through verbatim (explicit-params mode, line 304) or the object built by
the positional branch. -/
inductive QueryParams where
  | verbatim (v : JSValue)
  | built (p : ViewParams)

/-- A synchronously thrown JavaScript error.  `errMsg s` is
`new Error(s)`; `typeError` is the TypeError raised by dereferencing a
property of `null`; `refError` is the ReferenceError raised on line 306 by
`new error('Illegal invocation')`, where the lowercase `error` identifier
is undefined. -/
inductive JsError where
  | errMsg (s : String)
  | typeError
  | refError
  deriving DecidableEq

/-- The positional branch of the normalizer, lines 309-334 of
`createViewMethod`, executed when `params` was not taken verbatim:

  params = {};
  if (!endkey || typeof endkey === 'function') params.key = startkey;
  else { params.startkey = startkey; params.endkey = endkey; }
  if (!many) skip = limit;
  if (sort && sort == 'dsc') {
    params.descending = true;
    params.startkey = endkey; params.endkey = startkey;
  }
  if (limit && typeof limit !== 'function') params.limit = limit;
  if (skip && typeof skip !== 'function') params.skip = skip;
-/
def buildPositional (many : Bool) (startkey endkey sort limit skip : JSValue) : ViewParams :=
  let p1 : ViewParams :=
    if jsTruthy endkey = false ∨ jsTypeof endkey = "function" then
      { key := some startkey }
    else
      { startkey := some startkey, endkey := some endkey }
  let skip1 := if many = false then limit else skip
  let p2 : ViewParams :=
    if jsTruthy sort = true ∧ looseEqDsc sort = true then
      { p1 with descending := some true, startkey := some endkey, endkey := some startkey }
    else p1
  let p3 : ViewParams :=
    if jsTruthy limit = true ∧ jsTypeof limit ≠ "function" then
      { p2 with limit := some limit }
    else p2
  if jsTruthy skip1 = true ∧ jsTypeof skip1 ≠ "function" then
    { p3 with skip := some skip1 }
  else p3

/-- The whole parameter-normalization step of a generated view method
(lines 302-335).  The trailing-callback extraction on line 298 does not
influence the produced parameters, only which function is later invoked,
so it is not modelled.

  if (startkey === null && typeof endkey === 'object') params = endkey;
  else if (startkey === null && typeof endkey !== 'object')
    throw new error('Illegal invocation');
  if (!params) { ...positional branch... }

`null` is the only falsy value of typeof "object", so when the caller
passes `null` for both slots `params` is assigned `null`, the `!params`
test succeeds, and the positional branch runs.  When `startkey` is `null`
and `endkey` is not typeof "object", evaluating `new error(...)` throws a
ReferenceError (the identifier `error` is undefined). -/
def normalizeViewArgs (many : Bool) (startkey endkey sort limit skip : JSValue) :
    Except JsError QueryParams :=
  if jsIsNull startkey = true then
    if jsTypeof endkey = "object" then
      if jsTruthy endkey = true then
        .ok (.verbatim endkey)
      else
        .ok (.built (buildPositional many startkey endkey sort limit skip))
    else
      .error .refError
  else
    .ok (.built (buildPositional many startkey endkey sort limit skip))

example :
    buildPositional true (.str "2014-01-01") (.str "2014-12-31") (.str "dsc") .undef .undef =
      { startkey := some (.str "2014-12-31"), endkey := some (.str "2014-01-01"),
        descending := some true } := rfl

example :
    buildPositional true (.str "slug-value") .undef .undef .undef .undef =
      { key := some (.str "slug-value") } := rfl

example :
    normalizeViewArgs true .null (.obj [("key", .num 3)]) .undef .undef .undef =
      .ok (.verbatim (.obj [("key", .num 3)])) := rfl

example :
    normalizeViewArgs true .null (.num 3) .undef .undef .undef =
      .error .refError := rfl

/-! ## Document handle (`Instance`, lines 547-637) -/

/-- The state of a document handle.  `Instance` sets `this._model` and then
copies the caller's data fields onto itself; the document identity lives in
the `_id` and `_rev` properties (both default to `null` from the
prototype).  `dataFields` holds the remaining user fields. -/
structure InstanceData where
  _id : JSValue := .null
  _rev : JSValue := .null
  dataFields : List (String × JSValue) := []

/-- `Model.create(data)` / `new Instance(model, data)` (lines 388-390 and
547-550): `extend(this, data)` copies the enumerable own properties of
`data` onto the handle.  A non-object `data` value contributes no
properties (and `new` still yields an object, so the result is always
truthy).  Properties named `_id` and `_rev` land in the identity slots;
the `_model` back-reference is not carried as data. -/
def modelCreate (data : JSValue) : InstanceData :=
  match data with
  | .obj fs =>
      { _id := (jsLookup fs "_id").getD .null,
        _rev := (jsLookup fs "_rev").getD .null,
        dataFields := fs.filter
          (fun kv => kv.1 ≠ "_id" ∧ kv.1 ≠ "_rev" ∧ kv.1 ≠ "_model") }
  | _ => { }

/-- A JavaScript object is always truthy; models the `if (body)` test on
line 156, where `body` has just been replaced by `model.create(...)`. -/
def instanceTruthy (_ : InstanceData) : Bool := true

/-- The enumerable properties seen by `for (var k in vo)` after
`extend(true, {}, this)` (lines 623-624): the own properties (`_model`,
the identity slots, the data fields) together with the enumerable
prototype members `save`, `delete` and `toVO`, which are functions. -/
def instanceEnumProps (i : InstanceData) : List (String × JSValue) :=
  ("_model", .obj []) :: ("_id", i._id) :: ("_rev", i._rev) :: i.dataFields
    ++ [("save", .func), ("delete", .func), ("toVO", .func)]

/-- Remove a property, `delete vo[k]` (lines 627, 632, 633). -/
def jsDeleteField (fs : List (String × JSValue)) (key : String) :
    List (String × JSValue) :=
  fs.filter (fun kv => kv.1 != key)

/-- Is the property present with the strict value `null`?  Models
`vo._rev === null` (an absent property reads as `undefined`, which is not
strictly equal to `null`). -/
def isNullProp : Option JSValue → Bool
  | some .null => true
  | _ => false

/-- The keep-condition of the `for (var k in vo)` loop in `Instance.toVO`:
a property survives unless its value is a function or its name starts with
the reserved underscore and is neither `_id` nor `_rev`. -/
def toVOkeep (k : String) (v : JSValue) : Bool :=
  !(jsTypeof v == "function" ||
    (k.data.head? == some '_' && k != "_id" && k != "_rev"))

/-- `Instance.toVO` (lines 622-636) on the enumerable-property list:

  var vo = extend(true, {}, this);
  for (var k in vo)
    if ((typeof vo[k] === "function") ||
        (k[0] === '_' && k !== '_id' && k !== '_rev')) delete vo[k];
  if (vo._rev === null) delete vo._rev;
  if (vo._id === null) delete vo._id;
-/
def toVO (props : List (String × JSValue)) : List (String × JSValue) :=
  let vo := props.filter (fun kv => toVOkeep kv.1 kv.2)
  let vo := if isNullProp (jsLookup vo "_rev") then jsDeleteField vo "_rev" else vo
  if isNullProp (jsLookup vo "_id") then jsDeleteField vo "_id" else vo

/-- The wire projection of a handle. -/
def instanceToVO (i : InstanceData) : List (String × JSValue) :=
  toVO (instanceEnumProps i)

example :
    toVO [("_model", .obj []), ("_id", .str "x"), ("_rev", .null),
          ("data", .str "d"), ("save", .func), ("_secret", .num 5)] =
      [("_id", .str "x"), ("data", .str "d")] := rfl

/-! ## Collection gateway (`Model.prototype`, lines 356-537)

Each operation is split into its synchronous phase - which either throws
or issues exactly one request to the nano database handle - and, where a
claim needs it, a completion phase mapping the store's answer to the
delivered result.  The database handle is `Option Unit`: `none` models a
model whose `_db` is still `null`. -/

/-- A request issued to the nano database handle. -/
inductive StoreCall where
  | insert (doc : List (String × JSValue))
  | destroy (id rev : JSValue)
  | get (id : JSValue)
  | list
  | getView (path : String) (q : QueryParams)

/-- An error surfaced by the database layer; nano attaches the HTTP status
of the failed request as `status_code`. -/
structure DbError where
  status_code : Option Nat := none
  deriving DecidableEq

/-- `Model.save` (lines 398-401): `this._db.insert(instance.toVO(), cb)`.
There is no handle check: when `_db` is `null` the property access throws
a TypeError. -/
def modelSaveSync (db : Option Unit) (inst : InstanceData) : Except JsError StoreCall :=
  match db with
  | none => .error .typeError
  | some _ => .ok (.insert (instanceToVO inst))

/-- `Model.delete` (lines 409-412):
`this._db.destroy(instance._id, instance._rev, cb)`.  No handle check and
no identity check. -/
def modelDeleteSync (db : Option Unit) (inst : InstanceData) : Except JsError StoreCall :=
  match db with
  | none => .error .typeError
  | some _ => .ok (.destroy inst._id inst._rev)

/-- `Model.findAll` (lines 418-440), callback form: explicit guard
`if (!this._db) throw new Error('No database set!')` before
`this._db.list({include_docs: true}, ...)`. -/
def modelFindAllSync (db : Option Unit) : Except JsError StoreCall :=
  match db with
  | none => .error (.errMsg "No database set!")
  | some _ => .ok .list

/-- `Model.findOneByID` (lines 448-466), callback form: first
`if (!id) throw new Error('ID is missing')`, then the same explicit
`No database set!` guard, then `this._db.get(id, ...)`. -/
def modelFindOneByIDSync (db : Option Unit) (id : JSValue) : Except JsError StoreCall :=
  if jsTruthy id = false then .error (.errMsg "ID is missing")
  else match db with
    | none => .error (.errMsg "No database set!")
    | some _ => .ok (.get id)

/-- `Model.findManyByView` (lines 477-497), callback form: no handle
check, `this._db.get(viewPath, params, ...)` throws a TypeError when
`_db` is `null`. -/
def modelFindManyByViewSync (db : Option Unit) (path : String) (q : QueryParams) :
    Except JsError StoreCall :=
  match db with
  | none => .error .typeError
  | some _ => .ok (.getView path q)

/-- `extend({}, params, { limit: 1 })` (line 509): copy the caller's
parameter object and overwrite `limit` with `1`.  `extend` ignores
non-object sources, so a primitive `params` contributes nothing. -/
def extendLimit1 : QueryParams → QueryParams
  | .built p => .built { p with limit := some (.num 1) }
  | .verbatim v =>
      .verbatim (match v with
        | .obj fs => .obj (jsSetField fs "limit" (.num 1))
        | _ => .obj [("limit", .num 1)])

/-- The `limit` property of a parameter object. -/
def limitOf : QueryParams → Option JSValue
  | .built p => p.limit
  | .verbatim v =>
      match v with
      | .obj fs => jsLookup fs "limit"
      | _ => none

/-- `Model.findOneByView` (lines 508-522), synchronous phase: builds
`_params` with `limit` forced to `1` and delegates to
`findManyByView`. -/
def modelFindOneByViewSync (db : Option Unit) (path : String) (q : QueryParams) :
    Except JsError StoreCall :=
  modelFindManyByViewSync db path (extendLimit1 q)

/-- `Model.findManyByView`, completion phase (lines 482-496): an error is
forwarded untouched; otherwise every row value is wrapped in a fresh
instance, in the database's order. -/
def modelFindManyByViewResult (dbRows : Except DbError (List JSValue)) :
    Except DbError (List InstanceData) :=
  match dbRows with
  | .error e => .error e
  | .ok rows => .ok (rows.map modelCreate)

/-- `Model.findOneByView`, completion phase (lines 515-521): delegates to
`findManyByView` and delivers `results[0] || null`, i.e. the head of the
row list or the absent value - never an error - when no row matched. -/
def modelFindOneByViewResult (dbRows : Except DbError (List JSValue)) :
    Except DbError (Option InstanceData) :=
  match modelFindManyByViewResult dbRows with
  | .error e => .error e
  | .ok insts => .ok insts.head?

/-- The synchronous phase of a generated view method (lines 294-341):
normalize the arguments, then hand the parameters to `findManyByView`
(`many` true) or `findOneByView` (`many` false) on the given view path. -/
def viewMethodSync (many : Bool) (db : Option Unit) (path : String)
    (startkey endkey sort limit skip : JSValue) : Except JsError StoreCall :=
  match normalizeViewArgs many startkey endkey sort limit skip with
  | .error e => .error e
  | .ok q =>
      if many then modelFindManyByViewSync db path q
      else modelFindOneByViewSync db path q

/-- `Instance.delete`, synchronous phase (lines 582-596): delegates to
`this._model.delete(this, ...)` with no check of the handle's identity. -/
def instanceDeleteSync (db : Option Unit) (i : InstanceData) : Except JsError StoreCall :=
  modelDeleteSync db i

/-- `Instance.delete`, completion phase (lines 587-595): an error is
forwarded; on success `this._id = null; this._rev = null` in place. -/
def instanceDeleteComplete (i : InstanceData) (outcome : Except DbError Unit) :
    Except DbError InstanceData :=
  match outcome with
  | .error e => .error e
  | .ok _ => .ok { i with _id := .null, _rev := .null }

/-! ## Request router (`createRequestHandler` / `onRequest`, lines 72-246)

The router is a pure function of the request, the configuration and an
oracle giving the outcomes of the model operations it dispatches to.
Success payloads are carried as their already-serialized JSON text, since
no claim inspects them.  The `string.camelize` renaming between a URL
view segment and the generated method / flag names is injectively folded
into the lookup keys: both the enabled-views table and the
method-existence oracle are keyed by the raw URL segment. -/

/-- The `options.restapi` configuration.  The flags model the truthiness
tests `!apiOptions.index`, `!apiOptions.byID`, `!apiOptions.save`;
`mountPath` is `apiOptions.prefix`; `views` is `options.restapi.views`
(`none` when the property is undefined), with an enabled view represented
by membership. -/
structure ApiOptions where
  mountPath : Option String := none
  index : Bool := false
  byID : Bool := false
  save : Bool := false
  views : Option (List String) := none

/-- Outcomes of the model operations the router can dispatch to,
serialized payloads included. -/
structure ModelOracle where
  findAllVOs : Except DbError (List String)
  findOneByIDVO : String → Except DbError String
  saveBody : Except DbError String
  findOneMethodDefined : String → Bool
  findOneViewVO : String → String → Except DbError (Option String)
  findManyMethodDefined : String → Bool
  findManyViewVOs : String → String → Except DbError (List String)

/-- An inbound HTTP request.  `bodyParsed` is the outcome of
`JSON.parse` on the accumulated request body (`.error` when the text is
not valid JSON), the only way the router consumes the body. -/
structure HttpRequest where
  method : String
  url : String
  bodyParsed : Except Unit JSValue := .error ()

/-- What the handler answered with: `respondError(code, reason)` - where
`reason` is `none` when the call site passed no second argument - or
`respondResult` with a serialized success payload. -/
inductive RouterReply where
  | err (code : Nat) (reason : Option String)
  | ok (body : String)
  deriving DecidableEq

/-- Does the first list lead the second one?  Used for the anchored-regex
test of the mount-path strip. -/
def listLeadsWith : List Char → List Char → Bool
  | [], _ => true
  | _ :: _, [] => false
  | p :: ps, c :: cs => p == c && listLeadsWith ps cs

/-- `path.replace(new RegExp('^' + prefix), '')` (line 108) for a prefix
without regex metacharacters: drop the configured mount path when the URL
starts with it, leave the URL untouched otherwise. -/
def mountStrip (mount : Option String) (url : String) : String :=
  match mount with
  | none => url
  | some m =>
      if listLeadsWith m.data url.data then
        String.mk (url.data.drop m.data.length)
      else url

/-- JavaScript `path.split('/')` on the character list: split at every
separator, keeping empty segments (so "/" gives ["", ""]). -/
def splitSlashAux : List Char → List Char → List String
  | [], acc => [String.mk acc.reverse]
  | c :: cs, acc =>
      if c = '/' then String.mk acc.reverse :: splitSlashAux cs []
      else splitSlashAux cs (c :: acc)

/-- `path.split('/')`. -/
def splitSlash (s : String) : List String := splitSlashAux s.data []

/-- The route test `path.match(/^\/[^\/]+$/)` (line 125): a leading slash
followed by at least one character, none of them a slash. -/
def singleSegmentMatch (path : String) : Bool :=
  match path.data with
  | '/' :: rest => !rest.isEmpty && rest.all (fun c => c != '/')
  | _ => false

/-- `path.replace(/^\//, '')` (line 129). -/
def dropLeadSlash (path : String) : String :=
  match path.data with
  | '/' :: rest => String.mk rest
  | _ => path

/-- Is the configured view flag truthy?
`!options.restapi.views || !options.restapi.views[flagName]`
(lines 196-197 and 224-225). -/
def viewEnabled (opts : ApiOptions) (view : String) : Bool :=
  match opts.views with
  | none => false
  | some l => l.contains view

/-- What the save route does with the parsed body (lines 149-171 without
the store round trip): `model.create` wraps any successfully parsed value
in a new instance - `new` always yields an object, which is truthy - so
only a JSON.parse exception reaches the `Invalid JSON` branch. -/
inductive SaveStep where
  | callSave (inst : InstanceData)
  | respondInvalidJSON

/-- `processRequest` (lines 149-171), body handling:

  try { body = model.create(JSON.parse(body)); } catch (error) { body = null; }
  if (body) { model.save(body, ...); } else { respondError(400, 'Invalid JSON'); }
-/
def processRequestBody (parsed : Except Unit JSValue) : SaveStep :=
  match parsed with
  | .error _ => .respondInvalidJSON
  | .ok v =>
      let inst := modelCreate v
      if instanceTruthy inst then .callSave inst else .respondInvalidJSON

/-- The request handler `onRequest` (lines 75-245) as a routing function.
Matched in source order: index, findOneByID, save, findOneByView (a
three-segment path whose last segment does not start with a question
mark - note there is no method test on this and the following route),
findManyByView (third segment present, truthy and starting with a
question mark), and the final `respondError(400)` fallthrough.  Error
responses reproduce each `respondError` call site, including the three
sites that pass no reason argument. -/
def routerReply (opts : ApiOptions) (m : ModelOracle) (req : HttpRequest) : RouterReply :=
  let path := mountStrip opts.mountPath req.url
  if req.method = "GET" ∧ path = "/" then
    if opts.index = false then .err 403 (some "Indexing Not Allowed")
    else
      match m.findAllVOs with
      | .error _ => .err 500 (some "Database Error")
      | .ok vos => .ok ("[" ++ String.intercalate "," vos ++ "]")
  else if req.method = "GET" ∧ singleSegmentMatch path = true then
    if opts.byID = false then .err 403 (some "ByID Queries Not Allowed")
    else
      match m.findOneByIDVO (dropLeadSlash path) with
      | .error e =>
          if e.status_code = some 404 then .err 404 (some "Not Found")
          else .err 500 (some "Database Error")
      | .ok vo => .ok vo
  else if (req.method = "PUT" ∨ req.method = "POST") ∧ path = "/" then
    if opts.save = false then .err 403 (some "Save Is Not Allowed")
    else
      match processRequestBody req.bodyParsed with
      | .respondInvalidJSON => .err 400 (some "Invalid JSON")
      | .callSave _ =>
          match m.saveBody with
          | .error e =>
              if e.status_code = some 409 then .err 409 (some "Conflict")
              else .err 500 (some "Database Error")
          | .ok body => .ok body
  else
    let params := splitSlash path
    if params.length = 3 ∧ ((params.get? 2).getD "").data.head? ≠ some '?' then
      let view := (params.get? 1).getD ""
      let key := (params.get? 2).getD ""
      if viewEnabled opts view = false then .err 403 none
      else if m.findOneMethodDefined view = false then
        .err 400 (some "View Does Not Exist")
      else
        match m.findOneViewVO view key with
        | .error _ => .err 500 (some "Database Error")
        | .ok none => .err 404 none
        | .ok (some vo) => .ok vo
    else if (match params.get? 2 with
             | some s => !(s == "") && s.data.head? == some '?'
             | none => false) then
      let view := (params.get? 1).getD ""
      let query := String.mk (((params.get? 2).getD "").data.drop 1)
      if viewEnabled opts view = false then .err 403 none
      else if m.findManyMethodDefined view = false then
        .err 400 (some "View Does Not Exist")
      else
        match m.findManyViewVOs view query with
        | .error _ => .err 500 (some "Database Error")
        | .ok vos => .ok ("[" ++ String.intercalate "," vos ++ "]")
    else .err 400 none

/-- `respondError`'s body (lines 80-83): `JSON.stringify` of
`{error: code, reason: reason}`.  When the call site passed no reason the
property holds `undefined` and `JSON.stringify` drops it entirely.  The
error field always carries the numeric status code; the reason strings
used by the router need no JSON escaping. -/
def serializeErrorBody (code : Nat) (reason : Option String) : String :=
  "\x7b\"error\":" ++ toString code ++
    (match reason with
     | some r => ",\"reason\":\"" ++ r ++ "\""
     | none => "") ++ "\x7d"

/-- The written HTTP response: status line plus the headers set by
`respondError` / `respondResult`. -/
structure HttpResponse where
  status : Nat
  reasonPhrase : Option String
  contentType : String
  contentLength : Nat
  body : String

/-- `respondError` (lines 79-90) and `respondResult` (lines 92-105):
both serialize the body, set `Content-Type: application/json` and
`Content-Length: Buffer.byteLength(body)` (the UTF-8 byte count), and
write the status; `respondResult` defaults the status to 200. -/
def renderReply : RouterReply → HttpResponse
  | .err code reason =>
      let body := serializeErrorBody code reason
      { status := code, reasonPhrase := reason, contentType := "application/json",
        contentLength := body.utf8ByteSize, body := body }
  | .ok body =>
      { status := 200, reasonPhrase := none, contentType := "application/json",
        contentLength := body.utf8ByteSize, body := body }

/-- The `(code, reason)` pairs of the eleven distinct `respondError` call
sites of `onRequest`. -/
def routerErrorSites : List (Nat × Option String) :=
  [(403, some "Indexing Not Allowed"), (500, some "Database Error"),
   (403, some "ByID Queries Not Allowed"), (404, some "Not Found"),
   (403, some "Save Is Not Allowed"), (409, some "Conflict"),
   (400, some "Invalid JSON"), (403, none),
   (400, some "View Does Not Exist"), (404, none), (400, none)]

/-- A sample enumerable-property list of a handle carrying one user field,
a private field and the identity slots. -/
def voProbe : List (String × JSValue) :=
  [("_model", .obj []), ("_id", .str "x"), ("_rev", .null),
   ("data", .str "d"), ("save", .func), ("_secret", .num 5)]

/-- A sample model-operation oracle for exercising the router. -/
def oracleSample : ModelOracle :=
  { findAllVOs := .ok [],
    findOneByIDVO := fun _ => .error { },
    saveBody := .ok "\x7b\"ok\":true\x7d",
    findOneMethodDefined := fun _ => false,
    findOneViewVO := fun _ _ => .ok none,
    findManyMethodDefined := fun _ => false,
    findManyViewVOs := fun _ _ => .ok [] }

/-! ## Helper lemmas -/

/-- Closed-form of the positional branch: each field of the produced
parameter object, as a function of the four conditions the source tests. -/
theorem buildPositional_eq (many : Bool) (sk ek sort lim skp : JSValue) :
    buildPositional many sk ek sort lim skp =
      (let keyMode := jsTruthy ek = false ∨ jsTypeof ek = "function"
       let dscMode := jsTruthy sort = true ∧ looseEqDsc sort = true
       let skip1 := if many = false then lim else skp
       { key := if keyMode then some sk else none,
         startkey := if dscMode then some ek else if keyMode then none else some sk,
         endkey := if dscMode then some sk else if keyMode then none else some ek,
         descending := if dscMode then some true else none,
         limit := if jsTruthy lim = true ∧ jsTypeof lim ≠ "function" then some lim else none,
         skip := if jsTruthy skip1 = true ∧ jsTypeof skip1 ≠ "function" then some skip1 else none }) := by
  by_cases h1 : jsTruthy ek = false ∨ jsTypeof ek = "function" <;>
    by_cases h2 : jsTruthy sort = true ∧ looseEqDsc sort = true <;>
      by_cases h3 : jsTruthy lim = true ∧ jsTypeof lim ≠ "function" <;>
        by_cases h4 : jsTruthy (if many = false then lim else skp) = true ∧
            jsTypeof (if many = false then lim else skp) ≠ "function" <;>
          simp [buildPositional, h1, h2, h3, h4]

/-- No value other than the string "dsc" passes the loose-equality test. -/
theorem looseEqDsc_eq_false (sort : JSValue) (h : sort ≠ .str "dsc") :
    looseEqDsc sort = false := by
  cases sort <;> simp_all [looseEqDsc]

/-- Assigning a property makes the assigned value the one looked up. -/
theorem jsLookup_jsSetField (fs : List (String × JSValue)) (k : String) (v : JSValue) :
    jsLookup (jsSetField fs k v) k = some v := by
  induction fs with
  | nil => simp [jsSetField, jsLookup]
  | cons kv rest ih =>
      obtain ⟨k2, w⟩ := kv
      by_cases h : k2 = k <;> simp [jsSetField, jsLookup, h, ih]

/-- Membership after a property delete: the binding was already present
and its key is not the deleted one. -/
theorem mem_of_mem_jsDeleteField {fs : List (String × JSValue)} {key : String}
    {kv : String × JSValue} (h : kv ∈ jsDeleteField fs key) : kv ∈ fs ∧ kv.1 ≠ key := by
  unfold jsDeleteField at h
  have h1 := List.of_mem_filter h
  have h2 := List.mem_of_mem_filter h
  simp only [bne_iff_ne, ne_eq] at h1
  exact ⟨h2, h1⟩

/-- With duplicate-free keys - as in any real JavaScript object - a
member binding is exactly what lookup returns. -/
theorem jsLookup_eq_of_mem {fs : List (String × JSValue)} {k : String} {v : JSValue}
    (hnd : (fs.map Prod.fst).Nodup) (h : (k, v) ∈ fs) : jsLookup fs k = some v := by
  induction fs with
  | nil => cases h
  | cons kv rest ih =>
      obtain ⟨k2, w⟩ := kv
      simp only [List.map_cons, List.nodup_cons] at hnd
      rcases List.mem_cons.1 h with h | h
      · rw [Prod.mk.injEq] at h
        obtain ⟨h1, h2⟩ := h
        subst h1; subst h2
        simp [jsLookup]
      · have hne : k2 ≠ k := fun e => hnd.1 (by rw [e]; exact List.mem_map_of_mem Prod.fst h)
        simp [jsLookup, hne, ih hnd.2 h]

/-- Filtering preserves duplicate-freeness of the keys. -/
theorem nodupKeys_filter (fs : List (String × JSValue)) (p : String × JSValue → Bool)
    (hnd : (fs.map Prod.fst).Nodup) : (((fs.filter p).map Prod.fst)).Nodup :=
  ((List.filter_sublist fs).map Prod.fst).nodup hnd

/-- A property whose strict-null test failed holds a non-null value. -/
theorem isNullProp_some_false {v : JSValue} (h : isNullProp (some v) = false) : v ≠ .null := by
  cases v <;> simp_all [isNullProp]

/-- What surviving the `toVO` property loop means for a binding. -/
theorem toVOkeep_facts {k : String} {v : JSValue} (h : toVOkeep k v = true) :
    (k.data.head? = some '_' → k = "_id" ∨ k = "_rev") ∧ jsTypeof v ≠ "function" := by
  unfold toVOkeep at h
  simp only [Bool.not_eq_eq_eq_not, Bool.not_true, Bool.or_eq_false_iff,
    Bool.and_eq_false_iff, beq_eq_false_iff_ne, ne_eq, bne_eq_false_iff_eq] at h
  obtain ⟨hf, hres⟩ := h
  refine ⟨fun hu => ?_, hf⟩
  tauto

/-- Unpacked filter fact for the `toVO` keep-predicate. -/
theorem toVOkeep_of_mem_keep {props : List (String × JSValue)} {k : String} {v : JSValue}
    (h : (k, v) ∈ props.filter (fun kv => toVOkeep kv.1 kv.2)) : toVOkeep k v = true := by
  exact @List.of_mem_filter (String × JSValue) (fun kv => toVOkeep kv.1 kv.2) (k, v) props h

/-! ## Claim theorems -/

/-- Claim C1: for every positional-mode call to a generated view method
with both range bounds supplied (the endkey slot truthy and not the
completion handler), a sort argument equal to the literal string "dsc"
yields a normalized parameter object with `descending = true`, its
startkey equal to the caller's endkey argument and its endkey equal to
the caller's startkey argument (bounds swapped); any other sort value
leaves the bounds unswapped and `descending` unset. -/
theorem viewMethod_dsc_swaps_bounds (many : Bool) (sk ek sort lim skp : JSValue)
    (h1 : jsIsNull sk = false) (h2 : jsTruthy ek = true)
    (h3 : jsTypeof ek ≠ "function") :
    normalizeViewArgs many sk ek sort lim skp =
      .ok (.built (buildPositional many sk ek sort lim skp)) ∧
    (sort = .str "dsc" →
       (buildPositional many sk ek sort lim skp).descending = some true ∧
       (buildPositional many sk ek sort lim skp).startkey = some ek ∧
       (buildPositional many sk ek sort lim skp).endkey = some sk) ∧
    (sort ≠ .str "dsc" →
       (buildPositional many sk ek sort lim skp).descending = none ∧
       (buildPositional many sk ek sort lim skp).startkey = some sk ∧
       (buildPositional many sk ek sort lim skp).endkey = some ek) := by
  refine ⟨by simp [normalizeViewArgs, h1], ?_, ?_⟩
  · rintro rfl
    rw [buildPositional_eq]
    simp [h2, h3, jsTruthy, looseEqDsc]
  · intro hne
    rw [buildPositional_eq]
    simp [h2, h3, looseEqDsc_eq_false sort hne]

/-- Claim C1, witness: the spec's own example
`normalize("2014-01-01", "2014-12-31", "dsc")`. -/
theorem viewMethod_dsc_swaps_bounds_witness :
    normalizeViewArgs true (.str "2014-01-01") (.str "2014-12-31") (.str "dsc") .undef .undef =
      .ok (.built (buildPositional true (.str "2014-01-01") (.str "2014-12-31")
            (.str "dsc") .undef .undef)) ∧
    (buildPositional true (.str "2014-01-01") (.str "2014-12-31") (.str "dsc")
        .undef .undef).descending = some true ∧
    (buildPositional true (.str "2014-01-01") (.str "2014-12-31") (.str "dsc")
        .undef .undef).startkey = some (.str "2014-12-31") ∧
    (buildPositional true (.str "2014-01-01") (.str "2014-12-31") (.str "dsc")
        .undef .undef).endkey = some (.str "2014-01-01") := by
  have h := viewMethod_dsc_swaps_bounds true (.str "2014-01-01") (.str "2014-12-31")
    (.str "dsc") .undef .undef rfl (by decide) (by decide)
  exact ⟨h.1, h.2.1 rfl⟩

/-- Claim C2: `findOneByView` always queries the view with `limit`
forced to `1`, whatever limit the supplied parameters carried (shown both
on the parameter object actually sent to the store and on its limit
property), and delivers the first row as a single instance - the result
is an `Option`, never a list - or the empty result (`.ok none`, not an
error) when no row matches. -/
theorem findOneByView_forces_limit_one (q : QueryParams) (path : String)
    (dbRows : Except DbError (List JSValue)) :
    limitOf (extendLimit1 q) = some (.num 1) ∧
    modelFindOneByViewSync (some ()) path q = .ok (.getView path (extendLimit1 q)) ∧
    (dbRows = .ok [] → modelFindOneByViewResult dbRows = .ok none) ∧
    (∀ rows, dbRows = .ok rows →
       modelFindOneByViewResult dbRows = .ok (rows.map modelCreate).head? ∧
       (rows.map modelCreate).head?.toList.length ≤ 1) := by
  refine ⟨?_, rfl, ?_, ?_⟩
  · cases q with
    | built p => rfl
    | verbatim v =>
        cases v <;> simp [extendLimit1, limitOf, jsLookup, jsLookup_jsSetField]
  · rintro rfl; rfl
  · rintro rows rfl
    refine ⟨rfl, ?_⟩
    cases h : (rows.map modelCreate).head? <;> simp

/-- Claim C2, witness: a caller-supplied `limit: 99` is overridden, and an
empty row set yields the empty result rather than an error. -/
theorem findOneByView_forces_limit_one_witness :
    limitOf (extendLimit1 (.verbatim (.obj [("limit", .num 99)]))) = some (.num 1) ∧
    modelFindOneByViewResult (.ok []) = .ok none := by
  have h := findOneByView_forces_limit_one (.verbatim (.obj [("limit", .num 99)]))
    "_design/a/_view/b" (.ok [])
  exact ⟨h.1, h.2.2.1 rfl⟩

/-- Claim C3: when the first argument of a generated view method is
`null`, a second argument that is a non-null value of typeof "object" is
taken verbatim as the parameter object with no normalization applied,
while a second argument that is not typeof "object" makes the call fail
synchronously - before any store request - with the error thrown on line
306 (the source writes `throw new error('Illegal invocation')`; the
lowercase `error` identifier is undefined, so the value actually thrown
is a ReferenceError, raised at invocation time all the same). -/
theorem explicitParams_passthrough_or_throw (many : Bool) (ek sort lim skp : JSValue) :
    (jsTypeof ek = "object" → jsTruthy ek = true →
       normalizeViewArgs many .null ek sort lim skp = .ok (.verbatim ek)) ∧
    (jsTypeof ek ≠ "object" →
       normalizeViewArgs many .null ek sort lim skp = .error .refError ∧
       ∀ (db : Option Unit) (path : String),
         viewMethodSync many db path .null ek sort lim skp = .error .refError) := by
  constructor
  · intro hobj htr
    simp [normalizeViewArgs, jsIsNull, hobj, htr]
  · intro hne
    have hn : normalizeViewArgs many .null ek sort lim skp = .error .refError := by
      simp [normalizeViewArgs, jsIsNull, hne]
    exact ⟨hn, fun db path => by simp [viewMethodSync, hn]⟩

/-- Claim C3, witness: a parameter object is passed through verbatim and a
numeric second argument throws. -/
theorem explicitParams_passthrough_or_throw_witness :
    normalizeViewArgs true .null (.obj [("startkey", .num 1)]) .undef .undef .undef =
      .ok (.verbatim (.obj [("startkey", .num 1)])) ∧
    normalizeViewArgs false .null (.num 5) .undef .undef .undef = .error .refError := by
  refine ⟨(explicitParams_passthrough_or_throw true (.obj [("startkey", .num 1)]) .undef .undef
    .undef).1 rfl rfl, ((explicitParams_passthrough_or_throw false (.num 5) .undef .undef
    .undef).2 (by decide)).1⟩

/-- Claim C4, counterexample: a positional call whose endkey slot is
absent can still set the range fields.  With the endkey slot `undefined`
and the sort slot "dsc", the exact-match branch sets `key`, but the
descending branch then also writes `startkey = undefined` and
`endkey = "slug-value"` and sets `descending` - so the normalized object
is not a pure exact-match query, refuting the claim that no
startkey/endkey fields are set in this mode. -/
theorem exactMatch_dsc_sets_range_counterexample :
    normalizeViewArgs true (.str "slug-value") .undef (.str "dsc") .undef .undef =
      .ok (.built { key := some (.str "slug-value"), startkey := some .undef,
                    endkey := some (.str "slug-value"), descending := some true }) := rfl

/-- Claim C4 as amended: for a positional-mode call whose endkey slot is
absent or holds the completion handler, and whose sort argument is not
the literal "dsc", the normalized object is an exact-match query: `key`
equals the startkey argument and no startkey/endkey (nor descending)
fields are set.  (When sort is "dsc" the swap of line 329-330 runs even
in exact-match mode and writes both range fields, as the counterexample
shows.) -/
theorem exactMatch_key_query_no_range (many : Bool) (sk ek sort lim skp : JSValue)
    (h1 : jsIsNull sk = false)
    (h2 : jsTruthy ek = false ∨ jsTypeof ek = "function")
    (h3 : sort ≠ .str "dsc") :
    normalizeViewArgs many sk ek sort lim skp =
      .ok (.built (buildPositional many sk ek sort lim skp)) ∧
    (buildPositional many sk ek sort lim skp).key = some sk ∧
    (buildPositional many sk ek sort lim skp).startkey = none ∧
    (buildPositional many sk ek sort lim skp).endkey = none ∧
    (buildPositional many sk ek sort lim skp).descending = none := by
  refine ⟨by simp [normalizeViewArgs, h1], ?_, ?_, ?_, ?_⟩ <;>
    (rw [buildPositional_eq]; simp [h2, looseEqDsc_eq_false sort h3])

/-- Claim C4 as amended, witness: the spec's own example
`normalize("slug-value")`. -/
theorem exactMatch_key_query_no_range_witness :
    normalizeViewArgs false (.str "slug-value") .undef .undef .undef .undef =
      .ok (.built (buildPositional false (.str "slug-value") .undef .undef .undef .undef)) ∧
    (buildPositional false (.str "slug-value") .undef .undef .undef .undef).key =
      some (.str "slug-value") ∧
    (buildPositional false (.str "slug-value") .undef .undef .undef .undef).startkey = none := by
  have h := exactMatch_key_query_no_range false (.str "slug-value") .undef .undef .undef .undef
    rfl (Or.inl rfl) (fun hc => JSValue.noConfusion hc)
  exact ⟨h.1, h.2.1, h.2.2.1⟩

/-- Claim C5: in a positional-mode call to a single-result (findOne) view
method, the value in the 4th positional slot - the multi-result
signature's limit slot - is emitted in the normalized object as `skip`
(the 5th slot is discarded: the conclusion holds for every value there),
and limit is not a meaningful output of the single-result normalization:
the normalizer also copies the slot into `limit`, but `findOneByView`
unconditionally overwrites it, so the parameter object actually sent to
the store always carries `limit = 1`. -/
theorem findOne_fourth_slot_becomes_skip (sk ek sort v w : JSValue)
    (h1 : jsIsNull sk = false)
    (h2 : jsTruthy v = true) (h3 : jsTypeof v ≠ "function") :
    normalizeViewArgs false sk ek sort v w =
      .ok (.built (buildPositional false sk ek sort v w)) ∧
    (buildPositional false sk ek sort v w).skip = some v ∧
    (buildPositional false sk ek sort v w).limit = some v ∧
    limitOf (extendLimit1 (.built (buildPositional false sk ek sort v w))) =
      some (.num 1) := by
  refine ⟨by simp [normalizeViewArgs, h1], ?_, ?_, rfl⟩ <;>
    (rw [buildPositional_eq]; simp [h2, h3])

/-- Claim C5, witness: `findOne(startkey, endkey, sort, 5, 7)` emits
`skip = 5` and the store sees `limit = 1`. -/
theorem findOne_fourth_slot_becomes_skip_witness :
    (buildPositional false (.str "a") (.str "b") .undef (.num 5) (.num 7)).skip =
      some (.num 5) ∧
    (buildPositional false (.str "a") (.str "b") .undef (.num 5) (.num 7)).limit =
      some (.num 5) ∧
    limitOf (extendLimit1 (.built (buildPositional false (.str "a") (.str "b")
        .undef (.num 5) (.num 7)))) = some (.num 1) := by
  have h := findOne_fourth_slot_becomes_skip (.str "a") (.str "b") .undef (.num 5) (.num 7)
    rfl (by decide) (by decide)
  exact ⟨h.2.1, h.2.2.1, h.2.2.2⟩

/-- Claim C6: for every handle with duplicate-free property keys (as in
any JavaScript object), the wire projection `toVO` contains no key
beginning with the reserved underscore other than `_id` and `_rev`,
contains no callable value, and omits `_id` and `_rev` entirely when they
are null. -/
theorem toVO_wire_projection_safe (props : List (String × JSValue))
    (hnd : (props.map Prod.fst).Nodup) :
    ∀ k v, (k, v) ∈ toVO props →
      (k.data.head? = some '_' → k = "_id" ∨ k = "_rev") ∧
      jsTypeof v ≠ "function" ∧
      ((k = "_id" ∨ k = "_rev") → v ≠ .null) := by
  intro k v hmem
  have hnd1 : ((props.filter fun kv => toVOkeep kv.1 kv.2).map Prod.fst).Nodup :=
    nodupKeys_filter props _ hnd
  unfold toVO at hmem
  dsimp only at hmem
  set l1 := props.filter (fun kv => toVOkeep kv.1 kv.2) with hl1
  have safeAt : ∀ (l : List (String × JSValue)), (l.map Prod.fst).Nodup →
      ∀ (key : String), (k, v) ∈ l → k = key →
      isNullProp (jsLookup l key) = false → v ≠ .null := by
    intro l hl key hm hk hf
    subst hk
    rw [jsLookup_eq_of_mem hl hm] at hf
    exact isNullProp_some_false hf
  by_cases hrev : isNullProp (jsLookup l1 "_rev") = true
  · rw [if_pos hrev] at hmem
    have hnd2 : ((jsDeleteField l1 "_rev").map Prod.fst).Nodup :=
      nodupKeys_filter l1 _ hnd1
    by_cases hid : isNullProp (jsLookup (jsDeleteField l1 "_rev") "_id") = true
    · rw [if_pos hid] at hmem
      obtain ⟨hm2, hkid⟩ := mem_of_mem_jsDeleteField hmem
      obtain ⟨hm1, hkrev⟩ := mem_of_mem_jsDeleteField hm2
      obtain ⟨c1, c2⟩ := toVOkeep_facts (toVOkeep_of_mem_keep (hl1 ▸ hm1))
      exact ⟨c1, c2, fun hk => False.elim (by rcases hk with rfl | rfl
                                              exacts [hkid rfl, hkrev rfl])⟩
    · rw [if_neg hid] at hmem
      have hid' : isNullProp (jsLookup (jsDeleteField l1 "_rev") "_id") = false := by
        simpa using hid
      obtain ⟨hm1, hkrev⟩ := mem_of_mem_jsDeleteField hmem
      obtain ⟨c1, c2⟩ := toVOkeep_facts (toVOkeep_of_mem_keep (hl1 ▸ hm1))
      refine ⟨c1, c2, fun hk => ?_⟩
      rcases hk with rfl | rfl
      · exact safeAt _ hnd2 "_id" hmem rfl hid'
      · exact absurd rfl hkrev
  · rw [if_neg hrev] at hmem
    have hrev' : isNullProp (jsLookup l1 "_rev") = false := by simpa using hrev
    by_cases hid : isNullProp (jsLookup l1 "_id") = true
    · rw [if_pos hid] at hmem
      obtain ⟨hm1, hkid⟩ := mem_of_mem_jsDeleteField hmem
      obtain ⟨c1, c2⟩ := toVOkeep_facts (toVOkeep_of_mem_keep (hl1 ▸ hm1))
      refine ⟨c1, c2, fun hk => ?_⟩
      rcases hk with rfl | rfl
      · exact absurd rfl hkid
      · exact safeAt _ hnd1 "_rev" hm1 rfl hrev'
    · rw [if_neg hid] at hmem
      have hid' : isNullProp (jsLookup l1 "_id") = false := by simpa using hid
      obtain ⟨c1, c2⟩ := toVOkeep_facts (toVOkeep_of_mem_keep (hl1 ▸ hmem))
      refine ⟨c1, c2, fun hk => ?_⟩
      rcases hk with rfl | rfl
      · exact safeAt _ hnd1 "_id" hmem rfl hid'
      · exact safeAt _ hnd1 "_rev" hmem rfl hrev'

/-- Claim C6, witness: the sample handle `voProbe` keeps its
user field while `_model`, `_secret`, the function members and the null
`_rev` are all stripped. -/
theorem toVO_wire_projection_safe_witness :
    (voProbe.map Prod.fst).Nodup ∧
    ("data", JSValue.str "d") ∈ toVO voProbe ∧
    jsTypeof (JSValue.str "d") ≠ "function" ∧
    (("data" = "_id" ∨ "data" = "_rev") → JSValue.str "d" ≠ .null) := by
  have hnd : (voProbe.map Prod.fst).Nodup := by decide
  have hmem : ("data", JSValue.str "d") ∈ toVO voProbe := by
    show ("data", JSValue.str "d") ∈ [("_id", .str "x"), ("data", .str "d")]
    exact List.mem_cons_of_mem _ (List.mem_cons_self _ _)
  have h := toVO_wire_projection_safe voProbe hnd "data" (.str "d") hmem
  exact ⟨hnd, hmem, h.2.1, h.2.2⟩

/-- Claim C7, counterexample: `Instance.delete` never checks the
handle's identity, and the source defines no InvalidStateError.  A handle
whose `_id` is null is not rejected synchronously: the synchronous phase
completes with a `destroy(null, null)` request issued to the store,
refuting the claim that no request is issued. -/
theorem delete_nullId_issues_destroy_counterexample :
    instanceDeleteSync (some ()) { _id := .null, _rev := .null } =
      .ok (.destroy .null .null) := rfl

/-- Claim C7 as amended: `Instance.delete` performs no identity check -
for every handle, null-id handles included, it forwards
`destroy(_id, _rev)` to the store - and on a successful delete both id
and revision are cleared in place. -/
theorem delete_unchecked_clears_identity (i : InstanceData) :
    instanceDeleteSync (some ()) i = .ok (.destroy i._id i._rev) ∧
    instanceDeleteComplete i (.ok ()) = .ok { i with _id := .null, _rev := .null } :=
  ⟨rfl, rfl⟩

/-- Claim C8, counterexample: with no database handle attached,
`Model.save` does not raise the configuration error: it fails with the
TypeError from dereferencing `this._db.insert` on the null handle, not
with `Error('No database set!')`. -/
theorem save_missing_db_typeError_counterexample :
    modelSaveSync none { } = .error .typeError ∧
    modelSaveSync none { } ≠ .error (.errMsg "No database set!") := by
  refine ⟨rfl, fun h => ?_⟩
  simp [modelSaveSync] at h

/-- Claim C8 as amended: with no store handle attached every gateway
operation fails synchronously, before issuing any request (the `.error`
outcome of the synchronous phase carries no store call) - but only
`findAll` and `findOneByID` raise the explicit configuration error
`Error('No database set!')`; `save`, `delete`, `findManyByView` and
`findOneByView` have no guard and fail with the TypeError of a null
dereference instead. -/
theorem missing_db_sync_failures (inst : InstanceData) (id : JSValue) (path : String)
    (q : QueryParams) (h : jsTruthy id = true) :
    modelFindAllSync none = .error (.errMsg "No database set!") ∧
    modelFindOneByIDSync none id = .error (.errMsg "No database set!") ∧
    modelSaveSync none inst = .error .typeError ∧
    modelDeleteSync none inst = .error .typeError ∧
    modelFindManyByViewSync none path q = .error .typeError ∧
    modelFindOneByViewSync none path q = .error .typeError := by
  refine ⟨rfl, ?_, rfl, rfl, rfl, rfl⟩
  simp [modelFindOneByIDSync, h]

/-- Claim C8 as amended, witness: the six operations at a concrete
handle, id, view path and parameter object. -/
theorem missing_db_sync_failures_witness :
    modelFindAllSync none = .error (.errMsg "No database set!") ∧
    modelFindOneByIDSync none (.str "some-id") = .error (.errMsg "No database set!") ∧
    modelSaveSync none { } = .error .typeError := by
  have h := missing_db_sync_failures { } (.str "some-id") "_design/a/_view/b"
    (.built { }) (by decide)
  exact ⟨h.1, h.2.1, h.2.2.1⟩

/-- Claim C9, counterexample: not every error response carries a reason
string.  The fallthrough route - here a POST to "/a/b/c" - answers with
`respondError(400)` and no reason argument, so `JSON.stringify` drops the
undefined `reason` property and the body is exactly the thirteen bytes of
the error field alone. -/
theorem router_error_without_reason_counterexample :
    routerReply { } oracleSample { method := "POST", url := "/a/b/c" } = .err 400 none ∧
    serializeErrorBody 400 none = "\x7b\"error\":400\x7d" ∧
    (renderReply (.err 400 none)).body = "\x7b\"error\":400\x7d" := by
  refine ⟨?_, rfl, rfl⟩
  rfl

/-- Claim C9 as amended: every error response of the request router is
`respondError(code, reason)` for one of the eleven call sites of the
source; its HTTP status and the `error` field of the JSON body both carry
the code, and the `Content-Length` header equals the UTF-8 byte length of
the serialized body.  A reason string accompanies every site except the
view-not-enabled 403, the findOne-view-miss 404 and the unknown-route
400, whose bodies omit the `reason` field (it is undefined and
`JSON.stringify` drops it). -/
theorem router_error_response_shape (opts : ApiOptions) (m : ModelOracle)
    (req : HttpRequest) (c : Nat) (r : Option String)
    (h : routerReply opts m req = .err c r) :
    (renderReply (.err c r)).status = c ∧
    (renderReply (.err c r)).body = serializeErrorBody c r ∧
    (renderReply (.err c r)).contentLength = (serializeErrorBody c r).utf8ByteSize ∧
    (c, r) ∈ routerErrorSites := by
  refine ⟨rfl, rfl, rfl, ?_⟩
  unfold routerReply at h
  dsimp only at h
  repeat' split at h
  all_goals first
    | (cases h; decide)
    | exact RouterReply.noConfusion h

/-- Claim C9 as amended, witness: `GET /` with indexing disabled answers
403 with the fixed reason string. -/
theorem router_error_response_shape_witness :
    routerReply { } oracleSample { method := "GET", url := "/" } =
      .err 403 (some "Indexing Not Allowed") ∧
    (renderReply (.err 403 (some "Indexing Not Allowed"))).status = 403 ∧
    (403, some "Indexing Not Allowed") ∈ routerErrorSites := by
  have hr : routerReply { } oracleSample { method := "GET", url := "/" } =
      .err 403 (some "Indexing Not Allowed") := rfl
  have h := router_error_response_shape { } oracleSample { method := "GET", url := "/" }
    403 (some "Indexing Not Allowed") hr
  exact ⟨hr, h.1, h.2.2.2⟩

/-- Claim C10, counterexample: the request body "null" is valid JSON
parsing to the falsy value `null`, yet the save route does not answer
400 Invalid JSON: `model.create(null)` wraps it in a new instance, `new`
always yields a (truthy) object, so `model.save` is called - here
surfacing the store's success response. -/
theorem falsy_json_body_still_saves_counterexample :
    processRequestBody (.ok .null) = .callSave (modelCreate .null) ∧
    routerReply { save := true } oracleSample
      { method := "PUT", url := "/", bodyParsed := .ok .null } =
        .ok "\x7b\"ok\":true\x7d" :=
  ⟨rfl, rfl⟩

/-- Claim C10 as amended: on the save route only a JSON.parse exception
reaches the 400 Invalid JSON branch; every successfully parsed body -
falsy parsed values such as null, false, 0 or "" included - is wrapped by
`model.create` into an always-truthy instance and `model.save` is called,
the response then being determined solely by the store's answer. -/
theorem save_route_only_parse_failure_400 (v : JSValue) (m : ModelOracle) :
    processRequestBody (.ok v) = .callSave (modelCreate v) ∧
    processRequestBody (.error ()) = .respondInvalidJSON ∧
    routerReply { save := true } m { method := "PUT", url := "/", bodyParsed := .ok v } =
      (match m.saveBody with
       | .error e => if e.status_code = some 409 then .err 409 (some "Conflict")
                     else .err 500 (some "Database Error")
       | .ok body => .ok body) := by
  refine ⟨rfl, rfl, ?_⟩
  rfl
